import Mathlib

/-!
Verification of `snowflake_timetravel/utils/timetravel.py`.

The module's core is a string rewriter that injects a Snowflake
time-travel qualifier after each FROM-clause table reference
(`modify_from_clause_for_timetravel`), a qualifier builder that turns an
int / datetime / string timestamp into an `AT (TIMESTAMP => ...)` clause
(the if/elif/else of `query_at_time`), and orchestration wrappers
(`execute_query`, `query_at_time`, `query_at_offset`, `compare_timetravel`)
that dispatch queries through a database connection.

The embedding below models:
  * the regex scan of `re.compile(r'from\s+([\w\._]+)\s', re.IGNORECASE)`
    and `pattern.sub(f'from \\1 {time_travel_clause} ', query)` as an
    explicit left-to-right, leftmost, non-overlapping scanner over the
    character list (character classes restricted to ASCII, which is what
    `\w` and `\s` match on the ASCII subset), together with the eager
    parse `re.sub` performs on the replacement template before scanning,
    which can reject a malformed template even on a match-free query;
  * the qualifier builder as a total function on a sum of the runtime
    argument kinds, returning `Except` so that the error taxonomy named
    by the documentation is statable;
  * the executor-reaching functions as state-free runs that record the
    list of dispatched query texts together with a Python-level outcome.
    Their bodies read the free name `connection` (and `execute_query`
    also reads `params`); name resolution against the module's actual
    global bindings is modelled explicitly.
-/

set_option linter.unusedVariables false

namespace SnowflakeTimetravel

/-! ### Character classes of the pattern `from\s+([\w\._]+)\s` (ASCII) -/

/-- ASCII `\s`: the whitespace characters matched by Python's `\s`. -/
def isSpaceChar (c : Char) : Bool :=
  c = ' ' || c = '\t' || c = '\n' || c = '\r' || c = '\x0b' || c = '\x0c'

/-- ASCII `[\w\._]`: word characters, underscore and dot. -/
def isWordDotChar (c : Char) : Bool :=
  c.isAlphanum || c = '_' || c = '.'

/-- A successful match of `from\s+([\w\._]+)\s` at the head of the input:
`kw` is the case-insensitive `from` keyword as it appeared, `ws` the
whitespace run after it, `ident` the captured identifier (group 1),
`trail` the single whitespace character closing the match, and `rest`
the characters after the match. -/
structure FromMatch where
  kw : List Char
  ws : List Char
  ident : List Char
  trail : Char
  rest : List Char
deriving DecidableEq

/-- Attempt the pattern `from\s+([\w\._]+)\s` (IGNORECASE) at the head of
`cs`.  `\s+` and `[\w\._]+` are greedy, and since the two classes are
disjoint the regex engine never backtracks on this pattern, so maximal
runs are faithful. -/
def matchFromAt (cs : List Char) : Option FromMatch :=
  match cs with
  | c1 :: c2 :: c3 :: c4 :: cs' =>
    if c1.toLower = 'f' ∧ c2.toLower = 'r' ∧ c3.toLower = 'o' ∧ c4.toLower = 'm' then
      let ws := cs'.takeWhile isSpaceChar
      let rest1 := cs'.dropWhile isSpaceChar
      if ws = [] then none
      else
        let ident := rest1.takeWhile isWordDotChar
        let rest2 := rest1.dropWhile isWordDotChar
        if ident = [] then none
        else
          match rest2 with
          | [] => none
          | w :: rest3 =>
            if isSpaceChar w then some ⟨[c1, c2, c3, c4], ws, ident, w, rest3⟩
            else none
    else none
  | _ => none

/-- The replacement text `re.sub` produces for one match: the template is
`f'from \\1 {time_travel_clause} '`, i.e. literal `from `, group 1, a
space, the clause, a space.  (The template is substituted literally; a
backslash inside the clause would additionally be processed as a template
escape by `re.sub`, which theorems below exclude by hypothesis.) -/
def fromRepl (clause : String) (ident : List Char) : List Char :=
  "from ".data ++ ident ++ [' '] ++ clause.data ++ [' ']

/-- The scan of `pattern.sub`: walk left to right; at each position try the
pattern; on a match emit the replacement and continue after the match
(non-overlapping), otherwise keep the character.  `fuel` bounds the
recursion; every step consumes at least one character, so the initial
fuel `cs.length` is never exhausted (the fuel-0 case returns the
remaining input unchanged, which also agrees with the semantics for the
only reachable instance, the empty remainder). -/
def subFromAux (clause : String) : Nat → List Char → List Char
  | 0, cs => cs
  | _ + 1, [] => []
  | fuel + 1, c :: cs =>
    match matchFromAt (c :: cs) with
    | some m => fromRepl clause m.ident ++ subFromAux clause fuel m.rest
    | none => c :: subFromAux clause fuel cs

/-- `modify_from_clause_for_timetravel(query, time_travel_clause)`
(timetravel.py lines 11-29): `from_pattern.sub(f'from \\1 {clause} ', query)`,
the substitution itself.  `re.sub` additionally parses the replacement
template eagerly, before scanning the query, and can reject it; that
parse is modelled by `modify_from_clause_checked` below, whose success
path is this function. -/
def modify_from_clause_for_timetravel (query time_travel_clause : String) : String :=
  ⟨subFromAux time_travel_clause query.data.length query.data⟩

/-! ### The eager replacement-template parse of `re.sub`

CPython parses the replacement template `f'from \\1 {time_travel_clause} '`
before scanning the query and raises `re.error` for a malformed template —
a "bad escape" (backslash plus an ASCII letter outside `\a \b \f \n \r \t
\v`), an invalid group reference, a malformed `\g<...>`, an out-of-range
octal escape, or a lone trailing backslash — even when the query contains
no match at all.  The validator below follows `re._parser.parse_template`
for a pattern with `groups` capture groups and no named groups (the FROM
pattern has exactly one group and no names), over ASCII like the rest of
the model; numeric `\g<...>` names are modelled as plain digit strings
(Python's `int()` additionally tolerates a sign or underscores there). -/

/-- The errors `re._parser.parse_template` can raise (`re.error`).
`badGroupName` covers both of CPython's "bad character in group name"
and "unknown group name" (this pattern has no named groups). -/
inductive ReError
  | badEscapeEnd
  | badEscape (c : Char)
  | invalidGroupRef (index : Nat)
  | missingLt
  | missingGt
  | missingGroupName
  | badGroupName (name : List Char)
  | octalOutOfRange
deriving DecidableEq

/-- Split the body of a `\g<name>` reference at the closing `>`. -/
def splitAtGt : List Char → Option (List Char × List Char)
  | [] => none
  | '>' :: rest => some ([], rest)
  | c :: rest =>
    match splitAtGt rest with
    | some (nm, r) => some (c :: nm, r)
    | none => none

/-- The known character escapes of a replacement template
(`re._parser.ESCAPES`): `\a \b \f \n \r \t \v \\`. -/
def isTemplateCharEscape (c : Char) : Bool :=
  c = 'a' || c = 'b' || c = 'f' || c = 'n' || c = 'r' || c = 't' || c = 'v' || c = '\\'

/-- An octal digit. -/
def isOctDigit (c : Char) : Bool := '0' ≤ c && c ≤ '7'

/-- An ASCII letter (`re._parser.ASCIILETTERS`). -/
def isAsciiLetter (c : Char) : Bool := ('a' ≤ c && c ≤ 'z') || ('A' ≤ c && c ≤ 'Z')

/-- Decimal value of a digit character. -/
def digitVal (c : Char) : Nat := c.toNat - 48

/-- Decimal value of a digit string. -/
def digitsVal (l : List Char) : Nat := l.foldl (fun acc c => 10 * acc + digitVal c) 0

/-- `re._parser.parse_template` reduced to its accept/reject behaviour:
scan the template; after a backslash, `g` must introduce a valid group
reference, `\0` starts an octal escape of up to two further octal digits,
another digit starts a group reference (one digit, or two, or a
three-octal-digit literal when all three are octal, range-checked against
0o377) whose number must not exceed `groups`, the letters of `ESCAPES`
are character escapes, any other ASCII letter is a bad escape, and any
other character is kept literally.  `fuel` bounds the recursion; every
step consumes at least one character, so fuel `length` is never
exhausted. -/
def templateCheckAux (groups : Nat) : Nat → List Char → Option ReError
  | 0, _ => none
  | _ + 1, [] => none
  | fuel + 1, c :: rest =>
    if c = '\\' then
      match rest with
      | [] => some .badEscapeEnd
      | 'g' :: rest1 =>
        match rest1 with
        | '<' :: rest2 =>
          match splitAtGt rest2 with
          | none => some .missingGt
          | some (nm, rest3) =>
            if nm = [] then some .missingGroupName
            else if nm.all Char.isDigit then
              if digitsVal nm ≤ groups then templateCheckAux groups fuel rest3
              else some (.invalidGroupRef (digitsVal nm))
            else some (.badGroupName nm)
        | _ => some .missingLt
      | '0' :: rest1 =>
        match rest1 with
        | d2 :: rest2 =>
          if isOctDigit d2 then
            match rest2 with
            | d3 :: rest3 =>
              if isOctDigit d3 then templateCheckAux groups fuel rest3
              else templateCheckAux groups fuel rest2
            | [] => templateCheckAux groups fuel rest2
          else templateCheckAux groups fuel rest1
        | [] => templateCheckAux groups fuel rest1
      | c1 :: cs =>
        if c1.isDigit then
          match cs with
          | d2 :: cs2 =>
            if d2.isDigit then
              match cs2 with
              | d3 :: cs3 =>
                if isOctDigit c1 && isOctDigit d2 && isOctDigit d3 then
                  if 64 * digitVal c1 + 8 * digitVal d2 + digitVal d3 ≤ 255 then
                    templateCheckAux groups fuel cs3
                  else some .octalOutOfRange
                else if 10 * digitVal c1 + digitVal d2 ≤ groups then
                  templateCheckAux groups fuel cs2
                else some (.invalidGroupRef (10 * digitVal c1 + digitVal d2))
              | [] =>
                if 10 * digitVal c1 + digitVal d2 ≤ groups then
                  templateCheckAux groups fuel cs2
                else some (.invalidGroupRef (10 * digitVal c1 + digitVal d2))
            else if digitVal c1 ≤ groups then templateCheckAux groups fuel cs
            else some (.invalidGroupRef (digitVal c1))
          | [] =>
            if digitVal c1 ≤ groups then templateCheckAux groups fuel cs
            else some (.invalidGroupRef (digitVal c1))
        else if isTemplateCharEscape c1 then templateCheckAux groups fuel cs
        else if isAsciiLetter c1 then some (.badEscape c1)
        else templateCheckAux groups fuel cs
    else templateCheckAux groups fuel rest

/-- Parse-check a replacement template against a pattern with `groups`
capture groups. -/
def templateCheck (groups : Nat) (tmpl : List Char) : Option ReError :=
  templateCheckAux groups tmpl.length tmpl

/-- The full `from_pattern.sub(f'from \\1 {time_travel_clause} ', query)`
call, with `re.sub`'s eager template parse made explicit: the template —
`from `, `\1`, a space, the clause text, a space — is parsed first, and
a malformed template raises `re.error` regardless of whether the query
contains any match; only then is the query scanned and substituted.  The
success path is `modify_from_clause_for_timetravel`, whose literal splice
of the clause is exact for backslash-free clauses and, on match-free
queries, for every clause (with zero matches `sub` returns the input
unchanged whatever the parsed template expands to). -/
def modify_from_clause_checked (query time_travel_clause : String) :
    Except ReError String :=
  match templateCheck 1 ("from \\1 ".data ++ time_travel_clause.data ++ [' ']) with
  | some e => .error e
  | none => .ok (modify_from_clause_for_timetravel query time_travel_clause)

/-! ### A segment view of the same scan, used to state properties -/

/-- One segment of the scanned input: either a character the scan kept, or
a full match of the FROM pattern. -/
inductive FromSeg
  | lit (c : Char)
  | matched (kw ws ident : List Char) (trail : Char)
deriving DecidableEq

/-- The same scan as `subFromAux`, but recording segments instead of
substituting (fuel-0 emits the remainder as literal characters). -/
def scanFrom : Nat → List Char → List FromSeg
  | 0, cs => cs.map .lit
  | _ + 1, [] => []
  | fuel + 1, c :: cs =>
    match matchFromAt (c :: cs) with
    | some m => .matched m.kw m.ws m.ident m.trail :: scanFrom fuel m.rest
    | none => .lit c :: scanFrom fuel cs

/-- Segments of a character list under the sub scan. -/
def fromSegs (cs : List Char) : List FromSeg := scanFrom cs.length cs

/-- What one segment contributes to the output of `sub`. -/
def renderSeg (clause : String) : FromSeg → List Char
  | .lit c => [c]
  | .matched _ _ ident _ => fromRepl clause ident

/-- What a segment list contributes to the output of `sub`. -/
def renderSegs (clause : String) (segs : List FromSeg) : List Char :=
  (segs.map (renderSeg clause)).flatten

/-- The original characters a segment came from. -/
def origSeg : FromSeg → List Char
  | .lit c => [c]
  | .matched kw ws ident trail => kw ++ ws ++ ident ++ [trail]

/-- The original characters a segment list came from. -/
def origSegs (segs : List FromSeg) : List Char :=
  (segs.map origSeg).flatten

/-- The captured identifier of a matched segment, if any. -/
def segIdent : FromSeg → Option (List Char)
  | .lit _ => none
  | .matched _ _ ident _ => some ident

/-- The identifiers of all matches found by the scan. -/
def matchedIdents (segs : List FromSeg) : List (List Char) :=
  segs.filterMap segIdent

/-- A matched segment as produced by a successful `matchFromAt`:
case-insensitive `from` keyword, nonempty whitespace run, nonempty
identifier of word/dot characters, one trailing whitespace character. -/
def WellFormedMatch (kw ws ident : List Char) (trail : Char) : Prop :=
  kw.map Char.toLower = ['f', 'r', 'o', 'm'] ∧
  ws ≠ [] ∧ (∀ c ∈ ws, isSpaceChar c) ∧
  ident ≠ [] ∧ (∀ c ∈ ident, isWordDotChar c) ∧
  isSpaceChar trail

/-- A successful `matchFromAt` decomposes its input into the matched region
followed by the rest, and the parts satisfy the pattern's classes. -/
theorem matchFromAt_decomp {cs : List Char} {m : FromMatch}
    (h : matchFromAt cs = some m) :
    cs = m.kw ++ m.ws ++ m.ident ++ m.trail :: m.rest ∧
    WellFormedMatch m.kw m.ws m.ident m.trail := by
  match cs with
  | [] => simp [matchFromAt] at h
  | [c1] => simp [matchFromAt] at h
  | [c1, c2] => simp [matchFromAt] at h
  | [c1, c2, c3] => simp [matchFromAt] at h
  | c1 :: c2 :: c3 :: c4 :: cs' =>
    simp only [matchFromAt] at h
    split at h
    case isFalse => exact absurd h (by simp)
    case isTrue hkw =>
      split at h
      case isTrue => exact absurd h (by simp)
      case isFalse hws =>
        split at h
        case isTrue => exact absurd h (by simp)
        case isFalse hid =>
          split at h
          case h_1 => exact absurd h (by simp)
          case h_2 w rest3 heq =>
            split at h
            case isFalse => exact absurd h (by simp)
            case isTrue hw =>
              obtain rfl : FromMatch.mk [c1, c2, c3, c4]
                  (cs'.takeWhile isSpaceChar)
                  ((cs'.dropWhile isSpaceChar).takeWhile isWordDotChar) w rest3 = m :=
                Option.some.inj h
              refine ⟨?_, ?_, hws, ?_, hid, ?_, hw⟩
              · have h1 := List.takeWhile_append_dropWhile isSpaceChar cs'
                have h2 := List.takeWhile_append_dropWhile isWordDotChar
                  (cs'.dropWhile isSpaceChar)
                rw [heq] at h2
                simp only [FromMatch.kw, FromMatch.ws, FromMatch.ident, FromMatch.trail,
                  FromMatch.rest]
                rw [List.append_assoc, List.append_assoc]
                conv_lhs => rw [← h1, ← h2]
                simp
              · simp [hkw.1, hkw.2.1, hkw.2.2.1, hkw.2.2.2]
              · intro c hc
                exact List.mem_takeWhile_imp hc
              · intro c hc
                exact List.mem_takeWhile_imp hc

/-! ### The substitution is the rendering of the scan -/

theorem renderSegs_nil (clause : String) : renderSegs clause [] = [] := rfl

theorem renderSegs_cons (clause : String) (s : FromSeg) (segs : List FromSeg) :
    renderSegs clause (s :: segs) = renderSeg clause s ++ renderSegs clause segs := by
  simp [renderSegs]

theorem renderSegs_append (clause : String) (a b : List FromSeg) :
    renderSegs clause (a ++ b) = renderSegs clause a ++ renderSegs clause b := by
  simp [renderSegs]

theorem renderSegs_map_lit (clause : String) (l : List Char) :
    renderSegs clause (l.map FromSeg.lit) = l := by
  induction l with
  | nil => rfl
  | cons c l ih => simp [renderSegs_cons, renderSeg] at ih ⊢; exact ih

theorem origSegs_nil : origSegs [] = [] := rfl

theorem origSegs_cons (s : FromSeg) (segs : List FromSeg) :
    origSegs (s :: segs) = origSeg s ++ origSegs segs := by
  simp [origSegs]

theorem origSegs_append (a b : List FromSeg) :
    origSegs (a ++ b) = origSegs a ++ origSegs b := by
  simp [origSegs]

theorem origSegs_map_lit (l : List Char) :
    origSegs (l.map FromSeg.lit) = l := by
  induction l with
  | nil => rfl
  | cons c l ih => simp [origSegs_cons, origSeg] at ih ⊢; exact ih

/-- The output of the `sub` scan is the rendering of its segment view,
for every fuel value. -/
theorem subFromAux_eq_render (clause : String) :
    ∀ fuel cs, subFromAux clause fuel cs = renderSegs clause (scanFrom fuel cs) := by
  intro fuel
  induction fuel with
  | zero =>
    intro cs
    simp [subFromAux, scanFrom, renderSegs_map_lit]
  | succ fuel ih =>
    intro cs
    match cs with
    | [] => rfl
    | c :: cs =>
      simp only [subFromAux, scanFrom]
      cases hm : matchFromAt (c :: cs) with
      | some m => simp [renderSegs_cons, renderSeg, ih]
      | none => simp [renderSegs_cons, renderSeg, ih]

/-- The segment view reconstructs the input exactly, for every fuel value:
no byte outside the matched regions is moved or altered. -/
theorem origSegs_scanFrom :
    ∀ fuel cs, origSegs (scanFrom fuel cs) = cs := by
  intro fuel
  induction fuel with
  | zero =>
    intro cs
    simp [scanFrom, origSegs_map_lit]
  | succ fuel ih =>
    intro cs
    match cs with
    | [] => rfl
    | c :: cs =>
      simp only [scanFrom]
      cases hm : matchFromAt (c :: cs) with
      | some m =>
        have hd := (matchFromAt_decomp hm).1
        rw [hd]
        simp [origSegs_cons, origSeg, ih, List.append_assoc]
      | none => simp [origSegs_cons, origSeg, ih]

/-- Every matched segment the scan emits is a well-formed match of the
pattern. -/
theorem scanFrom_matched_wf :
    ∀ fuel cs kw ws ident trail,
      FromSeg.matched kw ws ident trail ∈ scanFrom fuel cs →
      WellFormedMatch kw ws ident trail := by
  intro fuel
  induction fuel with
  | zero =>
    intro cs kw ws ident trail hmem
    simp [scanFrom] at hmem
  | succ fuel ih =>
    intro cs kw ws ident trail hmem
    match cs with
    | [] => simp [scanFrom] at hmem
    | c :: cs =>
      simp only [scanFrom] at hmem
      cases hm : matchFromAt (c :: cs) with
      | some m =>
        rw [hm] at hmem
        rcases List.mem_cons.mp hmem with hhead | htail
        · obtain ⟨rfl, rfl, rfl, rfl⟩ :
              m.kw = kw ∧ m.ws = ws ∧ m.ident = ident ∧ m.trail = trail := by
            cases hhead; exact ⟨rfl, rfl, rfl, rfl⟩
          exact (matchFromAt_decomp hm).2
        · exact ih m.rest kw ws ident trail htail
      | none =>
        rw [hm] at hmem
        rcases List.mem_cons.mp hmem with hhead | htail
        · cases hhead
        · exact ih cs kw ws ident trail htail

/-- If the scan found no match, rendering equals the original text. -/
theorem renderSegs_eq_orig_of_no_match (clause : String) (segs : List FromSeg)
    (h : matchedIdents segs = []) :
    renderSegs clause segs = origSegs segs := by
  induction segs with
  | nil => rfl
  | cons s segs ih =>
    cases s with
    | lit c =>
      have h' : matchedIdents segs = [] := by
        simpa [matchedIdents, segIdent] using h
      simp [renderSegs_cons, origSegs_cons, renderSeg, origSeg, ih h']
    | matched kw ws ident trail =>
      simp [matchedIdents, segIdent] at h

/-! ### Claims about the clause injector -/

/-- On a match-free query the substitution scan leaves the input
unchanged (the no-template-error half of the no-match behaviour). -/
theorem modify_eq_self_of_no_match (query clause : String)
    (h : matchedIdents (fromSegs query.data) = []) :
    modify_from_clause_for_timetravel query clause = query := by
  apply String.ext
  show subFromAux clause query.data.length query.data = query.data
  rw [subFromAux_eq_render]
  have hseg : scanFrom query.data.length query.data = fromSegs query.data := rfl
  rw [hseg, renderSegs_eq_orig_of_no_match clause _ h]
  exact origSegs_scanFrom query.data.length query.data

/-- A template without backslashes parses without error. -/
theorem templateCheckAux_ok_of_no_backslash (groups : Nat) :
    ∀ fuel l, (∀ ch ∈ l, ch ≠ '\\') → templateCheckAux groups fuel l = none := by
  intro fuel
  induction fuel with
  | zero => intro l h; rfl
  | succ fuel ih =>
    intro l h
    cases l with
    | nil => rfl
    | cons c rest =>
      have hc : c ≠ '\\' := h c (List.mem_cons_self c rest)
      have hrest : ∀ ch ∈ rest, ch ≠ '\\' := fun ch hm => h ch (List.mem_cons_of_mem c hm)
      simp only [templateCheckAux]
      rw [if_neg hc]
      exact ih rest hrest

/-- Parsing the fixed template head `from \1 ` succeeds (the `\1` group
reference is valid for the one-group FROM pattern) and the parse
continues on the remainder. -/
theorem templateCheckAux_from1 (fuel : Nat) (r : List Char) :
    templateCheckAux 1 (fuel + 6) ("from \\1 ".data ++ r) =
      templateCheckAux 1 fuel (' ' :: r) := rfl

/-- C5 (counterexample): with the qualifier `\q` the query
`select 1 as x` contains zero FROM-clause matches, yet the call raises
`re.error` (`bad escape \q`) instead of returning the input unchanged:
`re.sub` parses the replacement template before looking for matches, so
the no-match case is not unconditionally error-free. -/
theorem modify_checked_bad_escape_error :
    matchedIdents (fromSegs ("select 1 as x").data) = [] ∧
    modify_from_clause_checked "select 1 as x" "\\q" =
      .error (.badEscape 'q') :=
  ⟨by decide, rfl⟩

/-- C5 (amended): for every SQL string on which the FROM-clause pattern
finds no match (zero FROM clauses), and every qualifier text containing
no backslash (so that the eagerly parsed replacement template is
well-formed), the call returns its input unchanged and raises no error:
for such qualifiers the no-match case is a silent pass-through, not a
failure. -/
theorem modify_checked_no_match_is_identity (query clause : String)
    (hclause : ∀ ch ∈ clause.data, ch ≠ '\\')
    (hmatch : matchedIdents (fromSegs query.data) = []) :
    modify_from_clause_checked query clause = .ok query := by
  have htail : ∀ ch ∈ (' ' :: (clause.data ++ [' '])), ch ≠ '\\' := by
    intro ch hm
    rcases List.mem_cons.mp hm with rfl | hm2
    · decide
    · rcases List.mem_append.mp hm2 with h3 | h3
      · exact hclause ch h3
      · obtain rfl := List.mem_singleton.mp h3
        decide
  have hlen : ("from \\1 ".data ++ (clause.data ++ [' '])).length =
      ((clause.data ++ [' ']).length + 2) + 6 := rfl
  unfold modify_from_clause_checked templateCheck
  rw [List.append_assoc, hlen, templateCheckAux_from1,
    templateCheckAux_ok_of_no_backslash 1 _ _ htail]
  show Except.ok (modify_from_clause_for_timetravel query clause) = Except.ok query
  rw [modify_eq_self_of_no_match query clause hmatch]

/-- Witness for C5 (amended) at a concrete no-FROM query and a concrete
backslash-free qualifier. -/
theorem modify_checked_no_match_is_identity_witness :
    (∀ ch ∈ ("AT (TIMESTAMP => '2023-07-22 12:00:00')" : String).data, ch ≠ '\\') ∧
    matchedIdents (fromSegs ("select 1 as x").data) = [] ∧
    modify_from_clause_checked "select 1 as x"
      "AT (TIMESTAMP => '2023-07-22 12:00:00')" = .ok "select 1 as x" :=
  ⟨by decide, by decide, modify_checked_no_match_is_identity "select 1 as x"
    "AT (TIMESTAMP => '2023-07-22 12:00:00')" (by decide) (by decide)⟩

/-- C7: the documented scenario: injecting the example qualifier into
`select * from T where x=1` yields exactly the expected string. -/
theorem modify_example_scenario :
    modify_from_clause_for_timetravel "select * from T where x=1"
      "AT (TIMESTAMP => '2023-07-22 12:00:00')" =
    "select * from T AT (TIMESTAMP => '2023-07-22 12:00:00') where x=1" := by
  decide

/-- C1 (counterexample): on a query whose single FROM clause is written
`FROM`, the rewriter does not preserve the keyword verbatim: the
replacement template re-emits the matched region with a lowercase
`from`, so the output differs from the one the claim requires. -/
theorem modify_uppercase_from_not_preserved :
    matchedIdents (fromSegs ("x FROM t y").data) = ["t".data] ∧
    modify_from_clause_for_timetravel "x FROM t y" "Q" = "x from t Q y" ∧
    modify_from_clause_for_timetravel "x FROM t y" "Q" ≠ "x FROM t Q y" := by
  decide

/-- C1 (amended): for every SQL string in which the scan finds exactly one
match of the FROM pattern — the input splits as
`l₁ ++ kw ++ ws ++ ident ++ trail :: l₂` with no match in `l₁` or `l₂` —
the rewriter keeps every byte of `l₁` and `l₂` unchanged and rewrites
the matched region to `from <ident> <clause> `: the qualifier is
inserted immediately after the table identifier and nowhere else, but
the keyword is re-emitted as lowercase `from` and the matched whitespace
is normalised to single spaces rather than preserved verbatim. -/
theorem modify_single_match (query clause : String)
    (l₁ l₂ kw ws ident : List Char) (trail : Char)
    (hscan : fromSegs query.data =
      l₁.map FromSeg.lit ++ FromSeg.matched kw ws ident trail :: l₂.map FromSeg.lit)
    (hclause : ∀ ch ∈ clause.data, ch ≠ '\\') :
    WellFormedMatch kw ws ident trail ∧
    query.data = l₁ ++ kw ++ ws ++ ident ++ trail :: l₂ ∧
    (modify_from_clause_for_timetravel query clause).data =
      l₁ ++ ("from ".data ++ ident ++ [' '] ++ clause.data ++ [' ']) ++ l₂ := by
  have hseg : scanFrom query.data.length query.data = fromSegs query.data := rfl
  refine ⟨?_, ?_, ?_⟩
  · apply scanFrom_matched_wf query.data.length query.data
    rw [hseg, hscan]
    simp
  · have h := origSegs_scanFrom query.data.length query.data
    rw [hseg, hscan] at h
    rw [← h, origSegs_append, origSegs_cons, origSegs_map_lit, origSegs_map_lit]
    simp [origSeg, List.append_assoc]
  · show subFromAux clause query.data.length query.data = _
    rw [subFromAux_eq_render, hseg, hscan,
      renderSegs_append, renderSegs_cons, renderSegs_map_lit, renderSegs_map_lit]
    simp [renderSeg, fromRepl, List.append_assoc]

/-- Witness for C1 (amended) at a concrete single-FROM query. -/
theorem modify_single_match_witness :
    WellFormedMatch "from".data [' '] "tbl".data ' ' ∧
    ("a from tbl rest" : String).data =
      ['a', ' '] ++ "from".data ++ [' '] ++ "tbl".data ++ ' ' :: "rest".data ∧
    (modify_from_clause_for_timetravel "a from tbl rest" "Q").data =
      ['a', ' '] ++ ("from ".data ++ "tbl".data ++ [' '] ++ "Q".data ++ [' ']) ++
        "rest".data :=
  modify_single_match "a from tbl rest" "Q" ['a', ' '] "rest".data "from".data [' ']
    "tbl".data ' ' (by decide) (by decide)

/-- C6: for every SQL string on which the scan finds two or more matches
of the FROM pattern, the rewriter qualifies every match, and all of them
identically: the output is the rendering in which each matched region
becomes `from <ident> <clause> ` with the same qualifier text, so each
matched identifier is followed by the qualifier in the output. -/
theorem modify_all_matches_identically (query clause : String)
    (hN : 2 ≤ (matchedIdents (fromSegs query.data)).length)
    (hclause : ∀ ch ∈ clause.data, ch ≠ '\\') :
    (modify_from_clause_for_timetravel query clause).data =
      renderSegs clause (fromSegs query.data) ∧
    ∀ ident ∈ matchedIdents (fromSegs query.data), ∃ l r,
      (modify_from_clause_for_timetravel query clause).data =
        l ++ ("from ".data ++ ident ++ [' '] ++ clause.data ++ [' ']) ++ r := by
  have hrender : (modify_from_clause_for_timetravel query clause).data =
      renderSegs clause (fromSegs query.data) :=
    subFromAux_eq_render clause query.data.length query.data
  refine ⟨hrender, ?_⟩
  intro ident hmem
  obtain ⟨s, hs, hsid⟩ := List.mem_filterMap.mp hmem
  cases s with
  | lit c => simp [segIdent] at hsid
  | matched kw ws ident' trail =>
    obtain rfl : ident' = ident := by simpa [segIdent] using hsid
    obtain ⟨l2, r2, heq⟩ := List.append_of_mem hs
    refine ⟨renderSegs clause l2, renderSegs clause r2, ?_⟩
    rw [hrender, heq, renderSegs_append, renderSegs_cons]
    simp [renderSeg, fromRepl, List.append_assoc]

/-- Witness for C6 at a concrete two-FROM query. -/
theorem modify_all_matches_identically_witness :
    (modify_from_clause_for_timetravel "from a from b " "Q").data =
      renderSegs "Q" (fromSegs ("from a from b ").data) :=
  (modify_all_matches_identically "from a from b " "Q" (by decide) (by decide)).1

/-! ### Timestamp qualifier builder (the if/elif/else of `query_at_time`) -/

/-- A value of Python's `datetime.datetime`, with the field bounds the
`datetime` constructor enforces (`MINYEAR = 1`, `MAXYEAR = 9999`). -/
structure PyDatetime where
  year : Nat
  month : Nat
  day : Nat
  hour : Nat
  minute : Nat
  second : Nat
  year_ge : 1 ≤ year
  year_le : year ≤ 9999
  month_ge : 1 ≤ month
  month_le : month ≤ 12
  day_ge : 1 ≤ day
  day_le : day ≤ 31
  hour_le : hour ≤ 23
  minute_le : minute ≤ 59
  second_le : second ≤ 59

/-- The decimal digit character for `n % 10`. -/
def decDigitChar (n : Nat) : Char :=
  match n % 10 with
  | 0 => '0' | 1 => '1' | 2 => '2' | 3 => '3' | 4 => '4'
  | 5 => '5' | 6 => '6' | 7 => '7' | 8 => '8' | _ => '9'

/-- Zero-padded two-digit decimal rendering (`%02d`, faithful for
`n < 100`, which the `PyDatetime` bounds guarantee for every field that
uses it). -/
def twoDigits (n : Nat) : String := ⟨[decDigitChar (n / 10), decDigitChar n]⟩

/-- Zero-padded four-digit decimal rendering (`%04d`; the documented
CPython rendering of `%Y` for `datetime` years, all of which are below
10000). -/
def fourDigits (n : Nat) : String :=
  ⟨[decDigitChar (n / 1000), decDigitChar (n / 100), decDigitChar (n / 10), decDigitChar n]⟩

/-- `timestamp.strftime("%Y-%m-%d %H:%M:%S")` (timetravel.py line 124). -/
def strftime_Ymd_HMS (d : PyDatetime) : String :=
  fourDigits d.year ++ "-" ++ twoDigits d.month ++ "-" ++ twoDigits d.day ++ " " ++
    twoDigits d.hour ++ ":" ++ twoDigits d.minute ++ ":" ++ twoDigits d.second

/-- The runtime kinds the `timestamp` argument of `query_at_time` can
have: `int`, `datetime.datetime`, `str`, or any other object (`other s`
models a value of any further type whose `str()` rendering is `s`). -/
inductive TimestampVal
  | intDays (n : Int)
  | datetime (d : PyDatetime)
  | str (s : String)
  | other (shown : String)

/-- Python-level outcomes of the modelled module: `NameError` for an
unbound name, the spec's `UnsupportedTimestampError` (named by the spec's
error taxonomy; the source defines and raises no such error), and a
remote executor failure. -/
inductive PyError
  | nameError (missing : String)
  | unsupportedTimestamp
  | executionError (detail : String)
deriving DecidableEq

/-- The qualifier builder: the `if isinstance(timestamp, int) / elif
isinstance(timestamp, datetime.datetime) / else` chain of `query_at_time`
(timetravel.py lines 118-129).  Every branch produces a clause: the
`else` branch assumes any non-int, non-datetime value is already a
formatted string and interpolates its `str()` rendering, so the builder
never fails. -/
def build_time_travel_clause : TimestampVal → Except PyError String
  | .intDays n =>
    .ok ("AT (TIMESTAMP => DATEADD(DAY, -" ++ toString n ++ ", CURRENT_TIMESTAMP()))")
  | .datetime d => .ok ("AT (TIMESTAMP => '" ++ strftime_Ymd_HMS d ++ "')")
  | .str s => .ok ("AT (TIMESTAMP => '" ++ s ++ "')")
  | .other shown => .ok ("AT (TIMESTAMP => '" ++ shown ++ "')")

/-- The time-travel clause `query_at_offset` builds for `days_ago`
(timetravel.py line 166). -/
def offset_time_travel_clause (days_ago : Int) : String :=
  "AT (TIMESTAMP => DATEADD(DAY, -" ++ toString days_ago ++ ", CURRENT_TIMESTAMP()))"

/-- Substring test: does `pat` occur contiguously in the haystack? -/
def hasSubstrAux (pat : List Char) : List Char → Bool
  | [] => pat.isEmpty
  | c :: cs => pat.isPrefixOf (c :: cs) || hasSubstrAux pat cs

/-- Substring test on strings. -/
def hasSubstr (pat s : String) : Bool := hasSubstrAux pat.data s.data

theorem decDigitChar_isDigit (n : Nat) : (decDigitChar n).isDigit = true := by
  unfold decDigitChar
  split <;> decide

theorem twoDigits_digits (n : Nat) : ∀ ch ∈ (twoDigits n).data, ch.isDigit := by
  intro ch hch
  simp [twoDigits] at hch
  rcases hch with rfl | rfl <;> exact decDigitChar_isDigit _

theorem fourDigits_digits (n : Nat) : ∀ ch ∈ (fourDigits n).data, ch.isDigit := by
  intro ch hch
  simp [fourDigits] at hch
  rcases hch with rfl | rfl | rfl | rfl <;> exact decDigitChar_isDigit _

theorem list_isPrefixOf_append (l r : List Char) : l.isPrefixOf (l ++ r) = true := by
  induction l with
  | nil => simp [List.isPrefixOf]
  | cons a l ih => simp [List.isPrefixOf, ih]

theorem hasSubstrAux_append (pat a b : List Char) :
    hasSubstrAux pat (a ++ pat ++ b) = true := by
  induction a with
  | nil =>
    cases pat with
    | nil =>
      cases b with
      | nil => rfl
      | cons c cs => simp [hasSubstrAux, List.isPrefixOf]
    | cons p ps =>
      have h := list_isPrefixOf_append (p :: ps) b
      simp only [List.nil_append]
      simp [hasSubstrAux, h]
  | cons c a ih =>
    show (pat.isPrefixOf (c :: (a ++ pat ++ b)) || hasSubstrAux pat (a ++ pat ++ b)) = true
    rw [ih, Bool.or_true]

/-! ### Claims about the qualifier builder -/

/-- C3 (counterexample): applied to a timestamp of an unrecognised kind
(modelled by `TimestampVal.other`, e.g. a float whose `str()` is `3.5`),
the builder produces an ordinary qualifier through the
assume-it-is-a-formatted-string branch instead of raising: nothing named
`UnsupportedTimestampError` exists in the source, and no branch fails. -/
theorem qualifier_unrecognized_kind_no_error :
    build_time_travel_clause (.other "3.5") = .ok "AT (TIMESTAMP => '3.5')" ∧
    build_time_travel_clause (.other "3.5") ≠ .error PyError.unsupportedTimestamp := by
  refine ⟨rfl, ?_⟩
  intro h
  exact Except.noConfusion h

/-- C3 (amended): the builder rejects no input kind: any value that is
neither an integer nor a structured datetime — including unrecognised
kinds — is treated as a pre-formatted string whose `str()` rendering is
embedded verbatim in the clause, and the builder returns normally on
every input, never raising `UnsupportedTimestampError` (so clause
building neither fails nor dispatches anything). -/
theorem qualifier_unrecognized_kind_passthrough :
    (∀ shown : String, build_time_travel_clause (.other shown) =
      .ok ("AT (TIMESTAMP => '" ++ shown ++ "')")) ∧
    ∀ t : TimestampVal, build_time_travel_clause t ≠ .error PyError.unsupportedTimestamp := by
  refine ⟨fun shown => rfl, ?_⟩
  intro t h
  cases t <;> exact Except.noConfusion h

/-- C8: for every structured datetime value the qualifier builder is a
function of the field values alone (hence deterministic: equal values
give equal clauses) and embeds the value rendered as
`YYYY-MM-DD HH:MM:SS` — 19 characters, all-digit fields of widths
4,2,2,2,2,2 separated by `-`, `-`, a space, `:`, `:`, with no timezone —
as a quoted literal inside the point-in-time clause. -/
theorem qualifier_datetime_format (d : PyDatetime) :
    build_time_travel_clause (.datetime d) =
      .ok ("AT (TIMESTAMP => '" ++ strftime_Ymd_HMS d ++ "')") ∧
    (strftime_Ymd_HMS d).length = 19 ∧
    ∃ ys mos ds hs mins ss : String,
      strftime_Ymd_HMS d =
        ys ++ "-" ++ mos ++ "-" ++ ds ++ " " ++ hs ++ ":" ++ mins ++ ":" ++ ss ∧
      ys.length = 4 ∧ mos.length = 2 ∧ ds.length = 2 ∧ hs.length = 2 ∧
      mins.length = 2 ∧ ss.length = 2 ∧
      (∀ ch ∈ ys.data, ch.isDigit) ∧ (∀ ch ∈ mos.data, ch.isDigit) ∧
      (∀ ch ∈ ds.data, ch.isDigit) ∧ (∀ ch ∈ hs.data, ch.isDigit) ∧
      (∀ ch ∈ mins.data, ch.isDigit) ∧ (∀ ch ∈ ss.data, ch.isDigit) := by
  refine ⟨rfl, ?_, fourDigits d.year, twoDigits d.month, twoDigits d.day,
    twoDigits d.hour, twoDigits d.minute, twoDigits d.second, rfl, rfl, rfl, rfl, rfl,
    rfl, rfl, fourDigits_digits _, twoDigits_digits _, twoDigits_digits _,
    twoDigits_digits _, twoDigits_digits _, twoDigits_digits _⟩
  have h4 : ∀ n, (fourDigits n).length = 4 := fun n => rfl
  have h2 : ∀ n, (twoDigits n).length = 2 := fun n => rfl
  have hsep : ("-" : String).length = 1 := rfl
  have hsp : (" " : String).length = 1 := rfl
  have hcol : (":" : String).length = 1 := rfl
  simp [strftime_Ymd_HMS, String.length_append, h4, h2, hsep, hsp, hcol]

/-- C9: for every integer day offset the builder emits a clause deferring
"now minus N days" to the remote engine — a
`DATEADD(DAY, -N, CURRENT_TIMESTAMP())` expression around the engine's
own clock rather than a locally computed timestamp; `query_at_offset`
builds the identical clause text, the clause always contains the pattern
`DATEADD(DAY, -N,`, and for N = 7 it contains the literal
`DATEADD(DAY, -7,`. -/
theorem qualifier_int_offset_dateadd :
    (∀ n : Int, build_time_travel_clause (.intDays n) = .ok (offset_time_travel_clause n)) ∧
    (∀ n : Int, offset_time_travel_clause n =
      "AT (TIMESTAMP => " ++ ("DATEADD(DAY, -" ++ toString n ++ ",") ++
        " CURRENT_TIMESTAMP()))") ∧
    (∀ n : Int, hasSubstr ("DATEADD(DAY, -" ++ toString n ++ ",")
      (offset_time_travel_clause n) = true) ∧
    hasSubstr "DATEADD(DAY, -7," (offset_time_travel_clause 7) = true := by
  have hdata : ∀ s t : String, (s ++ t).data = s.data ++ t.data := fun s t => rfl
  have hsplit : ∀ n : Int, offset_time_travel_clause n =
      "AT (TIMESTAMP => " ++ ("DATEADD(DAY, -" ++ toString n ++ ",") ++
        " CURRENT_TIMESTAMP()))" := by
    intro n
    apply String.ext
    have hA : ("AT (TIMESTAMP => DATEADD(DAY, -" : String).data =
        ("AT (TIMESTAMP => " : String).data ++ ("DATEADD(DAY, -" : String).data := by
      decide
    have hB : (", CURRENT_TIMESTAMP()))" : String).data =
        ("," : String).data ++ (" CURRENT_TIMESTAMP()))" : String).data := by decide
    simp [offset_time_travel_clause, hdata, hA, hB, List.append_assoc]
  refine ⟨fun n => rfl, hsplit, fun n => ?_, by decide⟩
  · rw [hsplit n]
    exact hasSubstrAux_append ("DATEADD(DAY, -" ++ toString n ++ ",").data
      ("AT (TIMESTAMP => " : String).data (" CURRENT_TIMESTAMP()))" : String).data

/-! ### The executor-reaching functions

The module binds these names at top level (its imports and `def`s);
crucially, neither `connection` nor `params` is among them, and Python's
builtins provide neither, so a function body that reads either free name
raises `NameError` when the read is executed.  Each function below is
modelled as a run returning the list of query texts dispatched to the
executor together with the Python-level outcome. -/

/-- The names bound at module level in `timetravel.py`, in binding order:
`import pandas as pd`, `from typing import ...`, `import datetime`,
`import re`, the first `def`, `import typing`, `import hextoolkit`, and
the remaining `def`s. -/
def moduleGlobals : List String :=
  ["pd", "Optional", "Union", "Dict", "Any", "List", "Tuple", "datetime", "re",
   "modify_from_clause_for_timetravel", "typing", "hextoolkit", "sql_cell",
   "execute_query", "query_at_time", "query_at_offset", "compare_timetravel",
   "visualize_comparison"]

/-- The names visible when resolving a read inside a function body: its
local scope (parameters and body-assigned locals) plus the module
globals. -/
def boundNames (locals : List String) : List String := locals ++ moduleGlobals

/-- A query parameter mapping (named parameter to value rendering). -/
abbrev ParamMap := List (String × String)

/-- A result table: named, ordered columns and rows. -/
structure Table where
  columns : List String
  rows : List (List String)
deriving DecidableEq

/-- Local scope of `compare_timetravel`: parameters plus body-assigned
locals (`historical_data`, `current_data`). -/
def compare_timetravel_locals : List String :=
  ["query", "days_ago", "db_name", "data_connection_name", "params", "cast_decimals",
   "historical_data", "current_data"]

/-- `compare_timetravel(query, days_ago, db_name, data_connection_name,
params, cast_decimals)` (timetravel.py lines 175-209).  Its first
statement, `historical_data = query_at_offset(connection, query,
days_ago, params)`, begins by evaluating the name `connection`, which is
bound neither locally nor at module level, so the run raises `NameError`
having dispatched nothing and returns no pair. -/
def compare_timetravel (query : String) (days_ago : Int)
    (db_name data_connection_name : String) (params : Option ParamMap)
    (cast_decimals : Bool) : List String × Except PyError (Table × Table) :=
  if h : "connection" ∈ boundNames compare_timetravel_locals then absurd h (by decide)
  else ([], .error (.nameError "connection"))

/-! ### Claims about the executor-reaching functions -/

/-- C2 (evaluation at the failing input): `compare_timetravel` on the
documented scenario dispatches nothing and raises
`NameError('connection')` — it does not issue two dispatches and does
not return a result pair. -/
theorem compare_timetravel_zero_dispatches :
    compare_timetravel "SELECT * FROM my_table" 7 "" "Analytics" none true =
      ([], .error (.nameError "connection")) := rfl

/-- C10 (evaluation at the failing input): a `compare_timetravel` call —
even one with query parameters — produces an empty dispatch trace, so
the executor is never invoked by it and the claim's premise (an executor
failure on one of the two dispatches the orchestrator makes) can never
arise; what propagates instead is the `NameError`, with no result pair. -/
theorem compare_timetravel_never_reaches_executor :
    compare_timetravel "SELECT id FROM orders " 3 "" "Analytics"
      (some [("practice_id", "1")]) true =
      ([], .error (.nameError "connection")) := rfl

end SnowflakeTimetravel
